import Mathlib

/-!
Verification development for the pinit repository (src/main.py,
src/pinit/extractor.py, src/pinit/cli.py).

The development shallowly embeds the extraction-and-publish pipeline:
a model of Python's `json.loads` (strict JSON decoding as used by the
code), Python's `str.strip`, `PinboardBookmarkExtractor` (prompts and
`extract_bookmark`), `add_bookmark_from_json` (src/main.py), and the
publish-call behaviour of the `add` CLI command (src/pinit/cli.py).
-/

namespace Pinit

/-- The opening curly brace character, written via its code point. -/
def lbrace : Char := Char.ofNat 123

/-- The closing curly brace character, written via its code point. -/
def rbrace : Char := Char.ofNat 125

/-- JSON values as decoded by Python's `json` module.  Numbers are kept in
decimal form as `mant * 10 ^ exp10`; `isFloat` records whether Python would
produce a `float` (a fraction or exponent was present) rather than an `int`.
`nan` and `inf` model the `NaN` / `Infinity` extensions `json.loads`
accepts.  Objects are association lists in insertion order with the
last duplicate key winning, as in a Python `dict`. -/
inductive Json where
  | null
  | bool (b : Bool)
  | num (mant : Int) (exp10 : Int) (isFloat : Bool)
  | nan
  | inf (neg : Bool)
  | str (s : String)
  | arr (elems : List Json)
  | obj (members : List (String × Json))

/-- The whitespace characters `json.loads` skips between tokens. -/
def isJsonWs (c : Char) : Bool :=
  c = ' ' || c = '\t' || c = '\n' || c = '\r'

/-- Skip insignificant whitespace, as the `json` module scanner does. -/
def skipWs (cs : List Char) : List Char := cs.dropWhile isJsonWs

/-- The ASCII whitespace characters stripped by Python's `str.strip()`. -/
def isPySpace (c : Char) : Bool :=
  c = ' ' || c = '\t' || c = '\n' || c = '\r' || c = '\x0b' || c = '\x0c'

/-- Python's `str.strip()` on the character list: drop whitespace from both
ends. -/
def pyStripList (cs : List Char) : List Char :=
  ((cs.dropWhile isPySpace).reverse.dropWhile isPySpace).reverse

/-- Python's `str.strip()` (restricted to ASCII whitespace). -/
def pyStrip (s : String) : String := String.mk (pyStripList s.data)

/-- Value of a decimal digit character. -/
def digitVal (c : Char) : Nat := c.toNat - 48

/-- Value of a hexadecimal digit character, if any. -/
def hexVal (c : Char) : Option Nat :=
  if c.isDigit then some (c.toNat - 48)
  else if 'a' ≤ c && c ≤ 'f' then some (c.toNat - 87)
  else if 'A' ≤ c && c ≤ 'F' then some (c.toNat - 55)
  else none

/-- Decimal digits to a natural number. -/
def digitsToNat (ds : List Char) : Nat :=
  ds.foldl (fun acc c => acc * 10 + digitVal c) 0

/-- Parse the body of a JSON string after the opening quote, handling the
escapes of the JSON grammar exactly as Python's strict scanner does
(control characters below 0x20 are rejected; `\uXXXX` escapes combine
surrogate pairs; a lone surrogate — which Lean's `Char` cannot represent,
unlike a Python `str` — is mapped to the replacement `Char.ofNat` gives).
Returns the decoded characters and the input remaining after the closing
quote.  The fuel argument only bounds recursion depth; every call consumes
at least one character, so fuel of at least the input length never runs
out. -/
def parseStringRest : Nat → List Char → Except String (List Char × List Char)
  | 0, _ => .error "Unterminated string"
  | _, [] => .error "Unterminated string"
  | Nat.succ fuel, c :: rest =>
    if c = '"' then .ok ([], rest)
    else if c = '\\' then
      match rest with
      | [] => .error "Unterminated string"
      | e :: rest2 =>
        if e = '"' then do
          let (cs, r) ← parseStringRest fuel rest2
          .ok ('"' :: cs, r)
        else if e = '\\' then do
          let (cs, r) ← parseStringRest fuel rest2
          .ok ('\\' :: cs, r)
        else if e = '/' then do
          let (cs, r) ← parseStringRest fuel rest2
          .ok ('/' :: cs, r)
        else if e = 'b' then do
          let (cs, r) ← parseStringRest fuel rest2
          .ok ('\x08' :: cs, r)
        else if e = 'f' then do
          let (cs, r) ← parseStringRest fuel rest2
          .ok ('\x0c' :: cs, r)
        else if e = 'n' then do
          let (cs, r) ← parseStringRest fuel rest2
          .ok ('\n' :: cs, r)
        else if e = 'r' then do
          let (cs, r) ← parseStringRest fuel rest2
          .ok ('\r' :: cs, r)
        else if e = 't' then do
          let (cs, r) ← parseStringRest fuel rest2
          .ok ('\t' :: cs, r)
        else if e = 'u' then
          match rest2 with
          | h1 :: h2 :: h3 :: h4 :: rest3 =>
            match hexVal h1, hexVal h2, hexVal h3, hexVal h4 with
            | some a, some b, some c1, some d =>
              let n := ((a * 16 + b) * 16 + c1) * 16 + d
              if 0xD800 ≤ n && n ≤ 0xDBFF then
                match rest3 with
                | '\\' :: 'u' :: g1 :: g2 :: g3 :: g4 :: rest4 =>
                  match hexVal g1, hexVal g2, hexVal g3, hexVal g4 with
                  | some a2, some b2, some c2, some d2 =>
                    let m := ((a2 * 16 + b2) * 16 + c2) * 16 + d2
                    if 0xDC00 ≤ m && m ≤ 0xDFFF then do
                      let code := 0x10000 + (n - 0xD800) * 0x400 + (m - 0xDC00)
                      let (cs, r) ← parseStringRest fuel rest4
                      .ok (Char.ofNat code :: cs, r)
                    else do
                      let (cs, r) ← parseStringRest fuel rest3
                      .ok (Char.ofNat n :: cs, r)
                  | _, _, _, _ => .error "Invalid hex escape"
                | _ => do
                  let (cs, r) ← parseStringRest fuel rest3
                  .ok (Char.ofNat n :: cs, r)
              else do
                let (cs, r) ← parseStringRest fuel rest3
                .ok (Char.ofNat n :: cs, r)
            | _, _, _, _ => .error "Invalid hex escape"
          | _ => .error "Invalid hex escape"
        else .error "Invalid escape"
    else if c.toNat < 32 then .error "Invalid control character"
    else do
      let (cs, r) ← parseStringRest fuel rest
      .ok (c :: cs, r)

/-- Parse a JSON number starting at the head of the input, following the
number regex of Python's `json` module: `-? (0 | [1-9][0-9]*) (. [0-9]+)?
([eE] [+-]? [0-9]+)?`, where fraction and exponent groups are only
consumed when they match completely. -/
def parseNumber (cs : List Char) : Except String (Json × List Char) :=
  let signCs : Bool × List Char :=
    match cs with
    | '-' :: r => (true, r)
    | _ => (false, cs)
  let neg := signCs.1
  let cs1 := signCs.2
  match cs1 with
  | [] => .error "Expecting value"
  | c :: _ =>
    if c.isDigit then
      let intPart : List Char × List Char :=
        match cs1 with
        | '0' :: r => (['0'], r)
        | _ => cs1.span (fun ch => ch.isDigit)
      let intDigits := intPart.1
      let cs2 := intPart.2
      let fracPart : List Char × List Char :=
        match cs2 with
        | '.' :: r =>
          let p := r.span (fun ch => ch.isDigit)
          if p.1.isEmpty then ([], cs2) else (p.1, p.2)
        | _ => ([], cs2)
      let fracDigits := fracPart.1
      let cs3 := fracPart.2
      let expPart : List Char × Bool × Bool × List Char :=
        match cs3 with
        | e :: r =>
          if e = 'e' || e = 'E' then
            let se : Bool × List Char :=
              match r with
              | '+' :: r2 => (false, r2)
              | '-' :: r2 => (true, r2)
              | _ => (false, r)
            let p := se.2.span (fun ch => ch.isDigit)
            if p.1.isEmpty then ([], false, false, cs3)
            else (p.1, se.1, true, p.2)
          else ([], false, false, cs3)
        | [] => ([], false, false, cs3)
      let expDigits := expPart.1
      let expNeg := expPart.2.1
      let hasExp := expPart.2.2.1
      let cs4 := expPart.2.2.2
      let mantNat := digitsToNat (intDigits ++ fracDigits)
      let mant : Int := if neg then -(mantNat : Int) else (mantNat : Int)
      let expVal : Int :=
        if expNeg then -(digitsToNat expDigits : Int)
        else (digitsToNat expDigits : Int)
      let isFloat := !fracDigits.isEmpty || hasExp
      .ok (.num mant (expVal - (fracDigits.length : Int)) isFloat, cs4)
    else .error "Expecting value"

/-- Insert a key into an object association list the way a Python `dict`
does: an existing key keeps its position and gets the new value, a new key
is appended. -/
def insertKey : List (String × Json) → String → Json → List (String × Json)
  | [], k, v => [(k, v)]
  | (k0, v0) :: rest, k, v =>
    if k0 = k then (k0, v) :: rest else (k0, v0) :: insertKey rest k v

/-- Look a key up in a decoded object, like Python `dict` subscripting on
the dict built by `json.loads`. -/
def lookupKey : List (String × Json) → String → Option Json
  | [], _ => none
  | (k0, v0) :: rest, k => if k0 = k then some v0 else lookupKey rest k

mutual

/-- Parse one JSON value starting at the head of the input (leading
whitespace skipped here), returning the value and the remaining input.
Dispatches exactly over the alternatives Python's `json.loads` accepts:
objects, arrays, strings, `true`, `false`, `null`, the `NaN` / `Infinity`
/ `-Infinity` extensions, and numbers.  Fuel only bounds recursion depth;
`jsonLoads` supplies enough for any input. -/
def parseValue : Nat → List Char → Except String (Json × List Char)
  | 0, _ => .error "Recursion limit exceeded"
  | Nat.succ fuel, cs =>
    match skipWs cs with
    | [] => .error "Expecting value"
    | c :: rest =>
      if c = lbrace then
        match skipWs rest with
        | [] => .error "Expecting property name"
        | c2 :: rest2 =>
          if c2 = rbrace then .ok (.obj [], rest2)
          else parseMembers fuel [] (c2 :: rest2)
      else if c = '[' then
        match skipWs rest with
        | ']' :: rest2 => .ok (.arr [], rest2)
        | cs2 => do
          let (elems, rest2) ← parseElems fuel cs2
          .ok (.arr elems, rest2)
      else if c = '"' then do
        let (body, rest2) ← parseStringRest (rest.length + 1) rest
        .ok (.str (String.mk body), rest2)
      else if c = 't' then
        match rest with
        | 'r' :: 'u' :: 'e' :: r => .ok (.bool true, r)
        | _ => .error "Expecting value"
      else if c = 'f' then
        match rest with
        | 'a' :: 'l' :: 's' :: 'e' :: r => .ok (.bool false, r)
        | _ => .error "Expecting value"
      else if c = 'n' then
        match rest with
        | 'u' :: 'l' :: 'l' :: r => .ok (.null, r)
        | _ => .error "Expecting value"
      else if c = 'N' then
        match rest with
        | 'a' :: 'N' :: r => .ok (.nan, r)
        | _ => .error "Expecting value"
      else if c = 'I' then
        match rest with
        | 'n' :: 'f' :: 'i' :: 'n' :: 'i' :: 't' :: 'y' :: r =>
          .ok (.inf false, r)
        | _ => .error "Expecting value"
      else if c = '-' then
        match rest with
        | 'I' :: 'n' :: 'f' :: 'i' :: 'n' :: 'i' :: 't' :: 'y' :: r =>
          .ok (.inf true, r)
        | _ => parseNumber (c :: rest)
      else parseNumber (c :: rest)

/-- Parse the comma-separated elements of a non-empty JSON array, up to and
including the closing bracket. -/
def parseElems : Nat → List Char → Except String (List Json × List Char)
  | 0, _ => .error "Recursion limit exceeded"
  | Nat.succ fuel, cs => do
    let (v, rest) ← parseValue fuel cs
    match skipWs rest with
    | ',' :: rest2 => do
      let (vs, rest3) ← parseElems fuel rest2
      .ok (v :: vs, rest3)
    | ']' :: rest2 => .ok ([v], rest2)
    | _ => .error "Expecting comma delimiter"

/-- Parse the members of a non-empty JSON object starting at the first
(whitespace-skipped) character after the opening brace, accumulating keys
with Python `dict` duplicate semantics, up to and including the closing
brace. -/
def parseMembers : Nat → List (String × Json) → List Char →
    Except String (Json × List Char)
  | 0, _, _ => .error "Recursion limit exceeded"
  | Nat.succ fuel, acc, cs =>
    match cs with
    | '"' :: rest => do
      let (keyChars, rest2) ← parseStringRest (rest.length + 1) rest
      match skipWs rest2 with
      | ':' :: rest3 => do
        let (v, rest4) ← parseValue fuel rest3
        let acc2 := insertKey acc (String.mk keyChars) v
        match skipWs rest4 with
        | ',' :: rest5 => parseMembers fuel acc2 (skipWs rest5)
        | c :: rest5 =>
          if c = rbrace then .ok (.obj acc2, rest5)
          else .error "Expecting comma delimiter"
        | [] => .error "Expecting comma delimiter"
      | _ => .error "Expecting colon delimiter"
    | _ => .error "Expecting property name"

end

/-- Model of Python's `json.loads`: decode one JSON value and reject
trailing non-whitespace ("Extra data").  The fuel bound `2 * length + 2`
always suffices: between two fuel-consuming recursive calls the parser
consumes at least one input character, spending at most two units per
character. -/
def jsonLoads (s : String) : Except String Json :=
  match parseValue (2 * s.data.length + 2) s.data with
  | .error e => .error e
  | .ok (j, rest) =>
    if skipWs rest = [] then .ok j else .error "Extra data"

/-- The Python type name of a decoded JSON value, as it appears in Python
runtime errors. -/
def Json.pyTypeName : Json → String
  | .null => "NoneType"
  | .bool _ => "bool"
  | .num _ _ isFloat => if isFloat then "float" else "int"
  | .nan => "float"
  | .inf _ => "float"
  | .str _ => "str"
  | .arr _ => "list"
  | .obj _ => "dict"

/-- Whether a decoded JSON value is an object (a Python `dict`). -/
def Json.isObj : Json → Bool
  | .obj _ => true
  | _ => false

/-- The distinct failures the pipeline can raise.

* `parseError` — the `ValueError` raised by `extract_bookmark`
  (extractor.py lines 50-53): carries the `json.JSONDecodeError`
  diagnostic and the full, unstripped response text.
* `decodeError` — an uncaught `json.JSONDecodeError` from the
  string branch of `add_bookmark_from_json` (main.py line 63).
* `keyError` — a Python `KeyError` from subscripting a dict with a
  missing key (main.py lines 69-70).
* `typeError` — a Python `TypeError` from subscripting a non-dict
  value with a string key; carries the value's Python type name. -/
inductive ExtractError where
  | parseError (diagnostic : String) (rawText : String)
  | decodeError (diagnostic : String)
  | keyError (key : String)
  | typeError (pyType : String)

/-- `PinboardBookmarkExtractor.extract_bookmark` (extractor.py lines
31-53) restricted to its parsing step: the model call is external, so the
function is modelled on the raw response text it returns.  The code runs
`json.loads(response.text().strip())` and on `json.JSONDecodeError`
raises `ValueError` whose message interpolates the decode diagnostic and
the unstripped `response.text()`. -/
def extract_bookmark (responseText : String) : Except ExtractError Json :=
  match jsonLoads (pyStrip responseText) with
  | .ok bookmark_data => .ok bookmark_data
  | .error diag => .error (.parseError diag responseText)

/-- Python subscripting `value[key]` with a string key: a lookup on a
dict (raising `KeyError` when absent), a `TypeError` on any other decoded
JSON value. -/
def pySubscript (j : Json) (key : String) : Except ExtractError Json :=
  match j with
  | .obj kvs =>
    match lookupKey kvs key with
    | some v => .ok v
    | none => .error (.keyError key)
  | _ => .error (.typeError j.pyTypeName)

/-- Python `dict.get(key, default)` on a decoded JSON object. -/
def pyGet (j : Json) (key : String) (dflt : Json) : Json :=
  match j with
  | .obj kvs => (lookupKey kvs key).getD dflt
  | _ => dflt

/-- The bookmark record as read off by `add_bookmark_from_json`
(main.py lines 68-74): the four values it takes from the decoded JSON
before renaming them for the Pinboard API. -/
structure BookmarkRecord where
  title : Json
  url : Json
  description : Json
  tags : Json

/-- The argument evaluation of the `pb.posts.add(...)` call in
`add_bookmark_from_json` (main.py lines 68-74), in Python's left-to-right
order: `bookmark_data["url"]`, then `bookmark_data["title"]`, then
`bookmark_data.get("description", "")` and `bookmark_data.get("tags",
[])`.  A `KeyError` or `TypeError` here aborts before `pb.posts.add` is
invoked. -/
def mkRecord (bookmark_data : Json) : Except ExtractError BookmarkRecord := do
  let u ← pySubscript bookmark_data "url"
  let t ← pySubscript bookmark_data "title"
  .ok { title := t, url := u,
        description := pyGet bookmark_data "description" (.str "")
        tags := pyGet bookmark_data "tags" (.arr []) }

/-- The outgoing fields of the `pb.posts.add` call: the Pinboard API's
native key names. -/
structure PublishFields where
  url : Json
  description : Json
  extended : Json
  tags : Json
  shared : Bool
  toread : Bool

/-- The keyword arguments `add_bookmark_from_json` passes to
`pb.posts.add` (main.py lines 68-77): the record's `title` is sent as
Pinboard's `description`, the record's `description` as Pinboard's
`extended`, `url` and `tags` under their own names, and the hard-coded
flags `shared=True`, `toread=False`. -/
def toPublishFields (r : BookmarkRecord) : PublishFields :=
  { url := r.url, description := r.title, extended := r.description,
    tags := r.tags, shared := true, toread := false }

/-- The `bookmark_json` parameter of `add_bookmark_from_json`, which the
code dispatches on with `isinstance(bookmark_json, str)`: either a JSON
text or an already-decoded value. -/
inductive StrOrJson where
  | ofStr (s : String)
  | ofJson (j : Json)

/-- `add_bookmark_from_json` (main.py lines 58-79): a string argument is
first decoded with `json.loads` (uncaught `json.JSONDecodeError` on
failure), then the decoded value is mapped onto the `pb.posts.add`
keyword arguments. -/
def add_bookmark_from_json (bookmark_json : StrOrJson) :
    Except ExtractError PublishFields :=
  let decoded : Except ExtractError Json :=
    match bookmark_json with
    | .ofStr s =>
      match jsonLoads s with
      | .ok j => .ok j
      | .error diag => .error (.decodeError diag)
    | .ofJson j => .ok j
  match decoded with
  | .error e => .error e
  | .ok bookmark_data => (mkRecord bookmark_data).map toPublishFields

/-- The record the extraction pipeline produces for a raw model response:
`extract_bookmark` followed by the field reads of
`add_bookmark_from_json`. -/
def extractRecord (responseText : String) : Except ExtractError BookmarkRecord :=
  match extract_bookmark responseText with
  | .ok bookmark => mkRecord bookmark
  | .error e => .error e

/-- The `main` flow of src/main.py (lines 94-106) up to the publish call:
`extract_bookmark`, then `add_bookmark_from_json` on the decoded value.
When the response decoded to a JSON string, the decoded value is a Python
`str`, so `add_bookmark_from_json`'s `isinstance(bookmark_json, str)`
branch (main.py lines 62-63) re-decodes it with `json.loads`; every other
decoded value takes the non-string branch.  An error anywhere means
`pb.posts.add` is never invoked. -/
def mainAddFlow (responseText : String) : Except ExtractError PublishFields :=
  match extract_bookmark responseText with
  | .ok (.str inner) => add_bookmark_from_json (.ofStr inner)
  | .ok bookmark => add_bookmark_from_json (.ofJson bookmark)
  | .error e => .error e

/-- The flags of the `add` CLI command (cli.py lines 58-62). -/
structure AddOptions where
  dryRun : Bool
  outputJson : Bool
  privateFlag : Bool
  toread : Bool

/-- Whether an `Except` result is a success. -/
def exceptOk {ε α : Type} : Except ε α → Bool
  | .ok _ => true
  | .error _ => false

/-- The publish calls the `add` CLI command (cli.py lines 62-111) makes
for a given raw model response: at most one.  `extract_bookmark` failure
is caught (`except ValueError`) before any publish; with `--json` absent
the panel rendering reads `bookmark['title']` and `bookmark['url']`
(lines 75-76) and a `KeyError`/`TypeError` there is caught by the generic
handler before any publish; `--dry-run` returns before the publish; and
otherwise `add_bookmark_from_json` is called on `bookmark.copy()` (an
identical mapping), whose own `KeyError`/`TypeError` during argument
evaluation also precedes `pb.posts.add`.  The `--private` and `--toread`
flags are parsed but appear nowhere on this path.  The model assumes
`PINBOARD_API_TOKEN` is configured; its absence only removes the publish
call. -/
def cliAddPublishCalls (responseText : String) (opts : AddOptions) :
    List PublishFields :=
  match extract_bookmark responseText with
  | .error _ => []
  | .ok bookmark =>
    if !opts.outputJson &&
        (!(exceptOk (pySubscript bookmark "title")) ||
          !(exceptOk (pySubscript bookmark "url"))) then []
    else if opts.dryRun then []
    else
      match add_bookmark_from_json (.ofJson bookmark) with
      | .ok fields => [fields]
      | .error _ => []

/-- The constant system prompt of `PinboardBookmarkExtractor.__init__`
(extractor.py lines 17-23). -/
def system_prompt : String :=
  "You are a bookmark extraction assistant. Fetch the web page content and extract bookmark data.\nExtract these four fields:\n- title: The main title/headline of the page (not the HTML title tag, but the actual content title)\n- url: The original URL provided\n- description: A concise 1-2 sentence summary of what the page is about\n- tags: An array of 3-8 relevant lowercase tags (use hyphens for multi-word tags)\nCRITICAL: Return ONLY the JSON object with no additional text, explanations, code fences, or markdown formatting. Your entire response must be valid JSON that can be parsed directly."

/-- The text of the Jinja2 `prompt_template` before the `|url|`
placeholder (extractor.py lines 25-28). -/
def promptTemplateHead : String :=
  "Please fetch and analyze this web page to create a Pinboard bookmark entry:\nURL: "

/-- The text of the Jinja2 `prompt_template` after the `|url|`
placeholder. -/
def promptTemplateTail : String :=
  "\nFirst fetch the web page content, then extract the bookmark data as JSON. DO NOT include a code fence."

/-- `self.prompt_template.render(url=url)`: Jinja2 interpolation of the
URL string into the fixed template. -/
def renderPrompt (url : String) : String :=
  promptTemplateHead ++ url ++ promptTemplateTail

/-- The Prompt Builder: the (system instruction, user instruction) pair
`extract_bookmark` sends to the model (extractor.py lines 44-45). -/
def buildPrompts (url : String) : String × String :=
  (system_prompt, renderPrompt url)

/-- Concrete inputs used by the witness and counterexample theorems. -/
def c1input : String :=
  "\x7b\"title\":\"T\",\"url\":\"http://x\",\"description\":\"D\",\"tags\":[\"a-b\",\"c\"]\x7d"

/-- The decoded members of `c1input`, in insertion order. -/
def c1kvs : List (String × Json) :=
  [("title", .str "T"), ("url", .str "http://x"), ("description", .str "D"),
   ("tags", .arr [.str "a-b", .str "c"])]

/-- A non-JSON model response: prose around a JSON object. -/
def c2input : String := "Sure, here is the bookmark: \x7b\x7d"

/-- A valid JSON object with no `title` and no `url`. -/
def c3missing : String := "\x7b\"description\": \"x\", \"tags\": []\x7d"

/-- A valid JSON object whose `title` is blank after trimming. -/
def c3blank : String := "\x7b\"title\": \"   \", \"url\": \"u\"\x7d"

/-- Valid JSON that is not an object. -/
def c4input : String := "[1, 2]"

/-- A JSON string value (valid JSON, not an object, decodes to a Python
`str`). -/
def c4strinput : String := "\"hello\""

/-- A well-formed bookmark response used by the C6 witness. -/
def c6input : String := "\x7b\"title\":\"T\",\"url\":\"http://x\"\x7d"

/-- CLI options with both `--private` and `--toread` set. -/
def c6opts : AddOptions :=
  { dryRun := false, outputJson := false, privateFlag := true, toread := true }

/-- The publish fields the code sends for `c6input`. -/
def c6fields : PublishFields :=
  { url := .str "http://x", description := .str "T", extended := .str "",
    tags := .arr [], shared := true, toread := false }

/-- A well-formed bookmark response used by the C7 witness. -/
def c7input : String := "\x7b\"title\":\"W\",\"url\":\"http://w\"\x7d"

/-- A well-formed bookmark response used by the C9 witness. -/
def c9input : String := "\x7b\"title\":\"T\",\"url\":\"u\"\x7d"

/-- CLI options with every flag off. -/
def c9opts : AddOptions :=
  { dryRun := false, outputJson := false, privateFlag := false, toread := false }

/-- The publish fields the code sends for `c9input`. -/
def c9fields : PublishFields :=
  { url := .str "u", description := .str "T", extended := .str "",
    tags := .arr [], shared := true, toread := false }

/-- A JSON text handed to `add_bookmark_from_json` as a string. -/
def c10input : String := "\x7b\"title\":\"T\",\"url\":\"u\",\"tags\":[\"a\"]\x7d"

/-- The decoded members of `c10input`. -/
def c10kvs : List (String × Json) :=
  [("title", .str "T"), ("url", .str "u"), ("tags", .arr [.str "a"])]

/-- Dropping a leading all-whitespace block does not change `dropWhile`. -/
theorem dropWhile_all_append (p : Char → Bool) (ws l : List Char)
    (h : ws.all p = true) :
    (ws ++ l).dropWhile p = l.dropWhile p := by
  rw [List.dropWhile_append]
  have hnil : ws.dropWhile p = [] :=
    List.dropWhile_eq_nil_iff.mpr (List.all_eq_true.mp h)
  simp [hnil]

/-- When the left part survives `dropWhile`, appending distributes. -/
theorem dropWhile_ne_nil_append (p : Char → Bool) (l₁ l₂ : List Char)
    (h : l₁.dropWhile p ≠ []) :
    (l₁ ++ l₂).dropWhile p = l₁.dropWhile p ++ l₂ := by
  rw [List.dropWhile_append]
  simp [List.isEmpty_iff, h]

/-- A trailing all-whitespace block does not change the right-strip. -/
theorem rstrip_append (p : Char → Bool) (l ws : List Char)
    (h : ws.all p = true) :
    ((l ++ ws).reverse.dropWhile p).reverse =
      (l.reverse.dropWhile p).reverse := by
  rw [List.reverse_append,
    dropWhile_all_append p ws.reverse l.reverse (by rwa [List.all_reverse])]

/-- Surrounding whitespace is invisible to Python's `str.strip()`. -/
theorem pyStripList_append (a t b : List Char)
    (ha : a.all isPySpace = true) (hb : b.all isPySpace = true) :
    pyStripList (a ++ (t ++ b)) = pyStripList t := by
  unfold pyStripList
  rw [dropWhile_all_append _ a (t ++ b) ha]
  by_cases ht : t.all isPySpace = true
  · have h1 : (t ++ b).dropWhile isPySpace = [] :=
      List.dropWhile_eq_nil_iff.mpr (by
        intro x hx
        rcases List.mem_append.mp hx with hx | hx
        · exact List.all_eq_true.mp ht x hx
        · exact List.all_eq_true.mp hb x hx)
    have h2 : t.dropWhile isPySpace = [] :=
      List.dropWhile_eq_nil_iff.mpr (List.all_eq_true.mp ht)
    rw [h1, h2]
  · have hne : t.dropWhile isPySpace ≠ [] := by
      intro hnil
      exact ht (List.all_eq_true.mpr (List.dropWhile_eq_nil_iff.mp hnil))
    rw [dropWhile_ne_nil_append _ t b hne]
    exact rstrip_append isPySpace _ b hb

/-- String-level form of `pyStripList_append`. -/
theorem pyStrip_append (a t b : String)
    (ha : a.data.all isPySpace = true) (hb : b.data.all isPySpace = true) :
    pyStrip (a ++ t ++ b) = pyStrip t := by
  unfold pyStrip
  have hdata : (a ++ t ++ b).data = a.data ++ (t.data ++ b.data) := by
    rw [String.data_append, String.data_append, List.append_assoc]
  rw [hdata, pyStripList_append a.data t.data b.data ha hb]

/-- `extract_bookmark` succeeds exactly when decoding the stripped text
succeeds, and returns the decoded value. -/
theorem extract_bookmark_ok_iff (s : String) (j : Json) :
    extract_bookmark s = .ok j ↔ jsonLoads (pyStrip s) = .ok j := by
  unfold extract_bookmark
  cases hdec : jsonLoads (pyStrip s) <;> simp

/-- Every publish call the `add` CLI command makes carries the image under
the Pinboard field mapping of a record fully built from a successfully
decoded response. -/
theorem cliAdd_publish_shape (s : String) (opts : AddOptions)
    (f : PublishFields) (hf : f ∈ cliAddPublishCalls s opts) :
    ∃ j r, extract_bookmark s = .ok j ∧ mkRecord j = .ok r ∧
      f = toPublishFields r := by
  unfold cliAddPublishCalls at hf
  cases hx : extract_bookmark s with
  | error e => rw [hx] at hf; simp at hf
  | ok j =>
    rw [hx] at hf
    simp only [] at hf
    split at hf
    · simp at hf
    · split at hf
      · simp at hf
      · have hab : add_bookmark_from_json (.ofJson j) =
            (mkRecord j).map toPublishFields := rfl
        rw [hab] at hf
        cases hmk : mkRecord j with
        | error e => rw [hmk] at hf; simp [Except.map] at hf
        | ok r =>
          rw [hmk] at hf
          simp [Except.map] at hf
          exact ⟨j, r, rfl, hmk, hf⟩

/-- Claim C1: for every input text whose stripped form decodes as a JSON
object with non-empty (after trimming) string values under `title` and
`url`, the extraction pipeline succeeds and yields the record with
exactly the decoded `title` and `url`, the decoded `description` and
`tags` values (tag order preserved, being the decoded list itself), and
the defaults `""` and `[]` substituted when those keys are absent. -/
theorem c1_valid_object_yields_record (s : String)
    (kvs : List (String × Json)) (t u : String)
    (hdec : jsonLoads (pyStrip s) = .ok (.obj kvs))
    (ht : lookupKey kvs "title" = some (.str t)) (htne : pyStrip t ≠ "")
    (hu : lookupKey kvs "url" = some (.str u)) (hune : pyStrip u ≠ "") :
    extractRecord s =
      .ok { title := .str t, url := .str u,
            description := (lookupKey kvs "description").getD (.str ""),
            tags := (lookupKey kvs "tags").getD (.arr []) } := by
  have hx : extract_bookmark s = .ok (.obj kvs) :=
    (extract_bookmark_ok_iff s _).mpr hdec
  unfold extractRecord
  rw [hx]
  simp only [mkRecord, pySubscript, pyGet, hu, ht]
  rfl

/-- Witness for C1 at the round-trip example of the specification. -/
theorem c1_valid_object_yields_record_witness :
    jsonLoads (pyStrip c1input) = .ok (.obj c1kvs) ∧
    extractRecord c1input =
      .ok { title := .str "T", url := .str "http://x",
            description := .str "D",
            tags := .arr [.str "a-b", .str "c"] } :=
  ⟨rfl, c1_valid_object_yields_record c1input c1kvs "T" "http://x" rfl rfl
    (by decide) rfl (by decide)⟩

/-- Claim C2: for any input text that does not decode as JSON, the parser
fails with the parse error that carries both the decode diagnostic and
the full original raw text unmodified. -/
theorem c2_parse_failure_preserves_raw (s d : String)
    (h : jsonLoads (pyStrip s) = .error d) :
    extract_bookmark s = .error (.parseError d s) := by
  unfold extract_bookmark
  rw [h]

/-- Witness for C2 at a prose-wrapped response. -/
theorem c2_parse_failure_preserves_raw_witness :
    jsonLoads (pyStrip c2input) = .error "Expecting value" ∧
    extract_bookmark c2input =
      .error (.parseError "Expecting value" c2input) :=
  ⟨rfl, c2_parse_failure_preserves_raw c2input "Expecting value" rfl⟩

/-- Counterexample to claim C3: a valid JSON object missing `title` and
`url` makes the pipeline fail with the generic key-access fault
`KeyError('url')` rather than a distinct schema error, and a `title` that
is blank after trimming is not rejected at all — the publish fields are
produced with the blank title. -/
theorem c3_counterexample :
    mainAddFlow c3missing = .error (.keyError "url") ∧
    mainAddFlow c3blank =
      .ok { url := .str "u", description := .str "   ",
            extended := .str "", tags := .arr [],
            shared := true, toread := false } :=
  ⟨rfl, rfl⟩

/-- Claim C3 as amended: for inputs decoding to a JSON object, a missing
`url` key fails with `KeyError('url')`, and with `url` present a missing
`title` fails with `KeyError('title')` — generic key-access faults
(distinguishable from the parse error, but there is no dedicated schema
error, and blank-after-trimming values are accepted). -/
theorem c3_missing_keys_raise_keyerror (s : String)
    (kvs : List (String × Json))
    (hdec : jsonLoads (pyStrip s) = .ok (.obj kvs)) :
    (lookupKey kvs "url" = none →
      mainAddFlow s = .error (.keyError "url")) ∧
    (∀ v, lookupKey kvs "url" = some v → lookupKey kvs "title" = none →
      mainAddFlow s = .error (.keyError "title")) := by
  have hx : extract_bookmark s = .ok (.obj kvs) :=
    (extract_bookmark_ok_iff s _).mpr hdec
  constructor
  · intro hu
    unfold mainAddFlow
    rw [hx]
    simp only [add_bookmark_from_json, mkRecord, pySubscript, hu]
    rfl
  · intro v hu ht
    unfold mainAddFlow
    rw [hx]
    simp only [add_bookmark_from_json, mkRecord, pySubscript, hu, ht]
    rfl

/-- Witness for the amended C3 at an object with no `url`. -/
theorem c3_missing_keys_raise_keyerror_witness :
    lookupKey [("description", Json.str "x"), ("tags", Json.arr [])]
      "url" = none ∧
    mainAddFlow c3missing = .error (.keyError "url") :=
  ⟨rfl, (c3_missing_keys_raise_keyerror c3missing
    [("description", Json.str "x"), ("tags", Json.arr [])] rfl).1 rfl⟩

/-- Counterexample to claim C4: valid non-object JSON does not make the
parser fail — `extract_bookmark` returns the decoded array unchanged. -/
theorem c4_counterexample :
    extract_bookmark c4input =
      .ok (Json.arr [Json.num 1 0 false, Json.num 2 0 false]) := rfl

/-- Claim C4 as amended: valid JSON that is not an object is returned by
the parser as-is (no parse error).  Downstream, a non-string value fails
with a `TypeError` when the publish mapping subscripts it, while a string
value instead takes `add_bookmark_from_json`'s `isinstance`-str branch
and is re-decoded with `json.loads` — failing with a `JSONDecodeError`
when the string is not JSON, or proceeding with (and possibly
publishing) whatever it re-decodes to. -/
theorem c4_nonobject_passthrough (s : String) (j : Json)
    (hdec : jsonLoads (pyStrip s) = .ok j) (hno : j.isObj = false) :
    extract_bookmark s = .ok j ∧
    ((∀ inner, j ≠ .str inner) →
      mainAddFlow s = .error (.typeError j.pyTypeName)) ∧
    (∀ inner, j = .str inner →
      mainAddFlow s = add_bookmark_from_json (.ofStr inner)) := by
  have hx : extract_bookmark s = .ok j :=
    (extract_bookmark_ok_iff s j).mpr hdec
  refine ⟨hx, ?_, ?_⟩
  · intro hns
    unfold mainAddFlow
    rw [hx]
    cases j with
    | str inner => exact absurd rfl (hns inner)
    | obj kvs => simp [Json.isObj] at hno
    | null => rfl
    | bool b => rfl
    | num mant exp10 isFloat => rfl
    | nan => rfl
    | inf neg => rfl
    | arr elems => rfl
  · intro inner hj
    subst hj
    unfold mainAddFlow
    rw [hx]

/-- Witness for the amended C4, at a JSON array (TypeError downstream)
and at a JSON string (re-decoded, here failing with the decode error). -/
theorem c4_nonobject_passthrough_witness :
    Json.isObj (Json.arr [Json.num 1 0 false, Json.num 2 0 false]) = false ∧
    extract_bookmark c4input =
      .ok (Json.arr [Json.num 1 0 false, Json.num 2 0 false]) ∧
    mainAddFlow c4input = .error (.typeError "list") ∧
    Json.isObj (Json.str "hello") = false ∧
    extract_bookmark c4strinput = .ok (Json.str "hello") ∧
    mainAddFlow c4strinput = .error (.decodeError "Expecting value") := by
  have ha := c4_nonobject_passthrough c4input
    (Json.arr [Json.num 1 0 false, Json.num 2 0 false]) rfl rfl
  have hs := c4_nonobject_passthrough c4strinput (Json.str "hello") rfl rfl
  refine ⟨rfl, ha.1, ?_, rfl, hs.1, ?_⟩
  · exact ha.2.1 (fun inner h => Json.noConfusion h)
  · rw [hs.2.2 "hello" rfl]
    rfl

/-- Claim C5: the publish mapping sends the record's `title` under the
outgoing name `description`, the record's `description` under `extended`,
and passes `url` and `tags` through under their own names. -/
theorem c5_field_name_mapping (r : BookmarkRecord) :
    (toPublishFields r).description = r.title ∧
    (toPublishFields r).extended = r.description ∧
    (toPublishFields r).url = r.url ∧
    (toPublishFields r).tags = r.tags :=
  ⟨rfl, rfl, rfl, rfl⟩

/-- Claim C6 (the behaviour the code actually has): every publish call of
the `add` command goes out with `shared = true` and `toread = false`,
whatever the `--private` and `--toread` flags were — the flags are parsed
but never used, so the claimed `shared = not private`, `toread = toread`
contract is violated whenever a flag is set. -/
theorem c6_flags_ignored (s : String) (opts : AddOptions)
    (f : PublishFields) (hf : f ∈ cliAddPublishCalls s opts) :
    f.shared = true ∧ f.toread = false := by
  obtain ⟨j, r, -, -, rfl⟩ := cliAdd_publish_shape s opts f hf
  exact ⟨rfl, rfl⟩

/-- Witness for C6: with `--private` and `--toread` both set the call
still goes out with `shared = true` and `toread = false`. -/
theorem c6_flags_ignored_witness :
    c6opts.privateFlag = true ∧ c6opts.toread = true ∧
    cliAddPublishCalls c6input c6opts = [c6fields] ∧
    c6fields.shared = true ∧ c6fields.toread = false := by
  refine ⟨rfl, rfl, rfl, ?_⟩
  have hmem : c6fields ∈ cliAddPublishCalls c6input c6opts := by
    have h : cliAddPublishCalls c6input c6opts = [c6fields] := rfl
    rw [h]
    exact List.mem_singleton.mpr rfl
  exact c6_flags_ignored c6input c6opts c6fields hmem

/-- Claim C7: surrounding an input with whitespace-only blocks changes
neither parsing success nor the resulting record: stripping is the
parser's first step. -/
theorem c7_whitespace_tolerance (a t b : String)
    (ha : a.data.all isPySpace = true) (hb : b.data.all isPySpace = true)
    (j : Json) (h : extract_bookmark t = .ok j) :
    extract_bookmark (a ++ t ++ b) = .ok j ∧
      extractRecord (a ++ t ++ b) = extractRecord t := by
  have hs : pyStrip (a ++ t ++ b) = pyStrip t := pyStrip_append a t b ha hb
  have h1 : jsonLoads (pyStrip t) = .ok j := (extract_bookmark_ok_iff t j).mp h
  have h2 : extract_bookmark (a ++ t ++ b) = .ok j :=
    (extract_bookmark_ok_iff _ j).mpr (by rw [hs]; exact h1)
  refine ⟨h2, ?_⟩
  unfold extractRecord
  rw [h, h2]

/-- Witness for C7: newlines and spaces around a valid bookmark object. -/
theorem c7_whitespace_tolerance_witness :
    ("  \n").data.all isPySpace = true ∧
    (" \t").data.all isPySpace = true ∧
    extract_bookmark ("  \n" ++ c7input ++ " \t") =
      .ok (.obj [("title", .str "W"), ("url", .str "http://w")]) ∧
    extractRecord ("  \n" ++ c7input ++ " \t") = extractRecord c7input := by
  refine ⟨rfl, rfl, ?_, ?_⟩
  · exact (c7_whitespace_tolerance "  \n" c7input " \t" rfl rfl
      (.obj [("title", .str "W"), ("url", .str "http://w")]) rfl).1
  · exact (c7_whitespace_tolerance "  \n" c7input " \t" rfl rfl
      (.obj [("title", .str "W"), ("url", .str "http://w")]) rfl).2

/-- Claim C8: the Prompt Builder is a pure function of the URL: the system
instruction is one fixed text for every URL, and the user instruction is
the fixed directive template with the URL interpolated. -/
theorem c8_prompt_builder_constant (u v : String) :
    buildPrompts u =
      (system_prompt, promptTemplateHead ++ u ++ promptTemplateTail) ∧
    (buildPrompts u).1 = (buildPrompts v).1 :=
  ⟨rfl, rfl⟩

/-- Claim C9: a publish call happens only when extraction succeeded and a
record with `url` and `title` present was fully built — the published
fields are exactly the Pinboard mapping of that record, so a failed
extraction (parse error, or key fault while building the record) never
produces a publish call. -/
theorem c9_publish_only_after_record (s : String) (opts : AddOptions)
    (f : PublishFields) (hf : f ∈ cliAddPublishCalls s opts) :
    ∃ j r, extract_bookmark s = .ok j ∧ mkRecord j = .ok r ∧
      f = toPublishFields r :=
  cliAdd_publish_shape s opts f hf

/-- Witness for C9 at a well-formed response with all flags off. -/
theorem c9_publish_only_after_record_witness :
    cliAddPublishCalls c9input c9opts = [c9fields] ∧
    ∃ j r, extract_bookmark c9input = .ok j ∧ mkRecord j = .ok r ∧
      c9fields = toPublishFields r := by
  refine ⟨rfl, ?_⟩
  refine c9_publish_only_after_record c9input c9opts c9fields ?_
  have h : cliAddPublishCalls c9input c9opts = [c9fields] := rfl
  rw [h]
  exact List.mem_singleton.mpr rfl

/-- Claim C10: handing `add_bookmark_from_json` a JSON text that decodes
to an object gives exactly the same result as handing it the decoded
object itself. -/
theorem c10_string_input_equivalent (s : String)
    (kvs : List (String × Json))
    (h : jsonLoads s = .ok (.obj kvs)) :
    add_bookmark_from_json (.ofStr s) =
      add_bookmark_from_json (.ofJson (.obj kvs)) := by
  simp only [add_bookmark_from_json, h]

/-- Witness for C10 at a concrete bookmark text. -/
theorem c10_string_input_equivalent_witness :
    jsonLoads c10input = .ok (.obj c10kvs) ∧
    add_bookmark_from_json (.ofStr c10input) =
      add_bookmark_from_json (.ofJson (.obj c10kvs)) :=
  ⟨rfl, c10_string_input_equivalent c10input c10kvs rfl⟩

end Pinit
